import Mathlib

/-
Verification of the bulk-send receipt pipeline of the email_receipts
application (src/email_service.py, src/app.py, src/models.py), as a shallow
embedding in Lean.  Python strings are modelled by String, Python None by
Option, the Brevo remote API and uuid4 by explicit oracles, and the database
session by an explicit list of persisted records.
-/

/- ## Python string primitives -/

/-- Whitespace characters stripped by Python str.strip(). -/
def pyWS (c : Char) : Bool :=
  c = ' ' || c = '\t' || c = '\n' || c = '\r' || c.toNat = 11 || c.toNat = 12

/-- Model of Python str.strip(). -/
def pyStrip (s : String) : String :=
  ⟨((s.data.dropWhile pyWS).reverse.dropWhile pyWS).reverse⟩

/-- ASCII lower-casing of one character, as Python str.lower() does. -/
def pyLowerChar (c : Char) : Char :=
  if 'A' ≤ c ∧ c ≤ 'Z' then Char.ofNat (c.toNat + 32) else c

/-- Model of Python str.lower() (ASCII range). -/
def pyLower (s : String) : String := ⟨s.data.map pyLowerChar⟩

/-- ASCII upper-casing of one character, as Python str.upper() does. -/
def pyUpperChar (c : Char) : Char :=
  if 'a' ≤ c ∧ c ≤ 'z' then Char.ofNat (c.toNat - 32) else c

/-- Model of Python str.upper() (ASCII range). -/
def pyUpper (s : String) : String := ⟨s.data.map pyUpperChar⟩

/-- Model of the Python slice s[:n]. -/
def strTake (s : String) (n : Nat) : String := ⟨s.data.take n⟩

/-- Value of a list of decimal digit characters. -/
def digitsToNat (l : List Char) : Nat :=
  l.foldl (fun n c => n * 10 + (c.toNat - 48)) 0

/-- Model of Python int(s): optional sign followed by decimal digits,
surrounding whitespace allowed; returns none where int() raises ValueError. -/
def pyInt (s : String) : Option Int :=
  match (pyStrip s).data with
  | '-' :: ds =>
    if !ds.isEmpty && ds.all Char.isDigit then some (-(digitsToNat ds : Int)) else none
  | '+' :: ds =>
    if !ds.isEmpty && ds.all Char.isDigit then some ((digitsToNat ds : Int)) else none
  | ds =>
    if !ds.isEmpty && ds.all Char.isDigit then some ((digitsToNat ds : Int)) else none

/-- Lower-case hexadecimal digit (the alphabet of uuid4().hex). -/
def isLowerHexDigit (c : Char) : Bool := c.isDigit || ('a' ≤ c && c ≤ 'f')

/-- Upper-case hexadecimal digit. -/
def isUpperHexDigit (c : Char) : Bool := c.isDigit || ('A' ≤ c && c ≤ 'F')

/- ## Transactional email gateway (email_service.py) -/

/-- Outcome of one remote Brevo API call, supplied by an oracle indexed by
the number of calls made so far: a reply with an optional message_id, an
ApiException, or any other transport exception. -/
inductive ApiResult where
  | ok (message_id : Option String)
  | apiErr (detail : String)
  | transportErr (detail : String)
deriving DecidableEq

/-- The two HTML template files selected by create_receipt_email. -/
inductive Template where
  | digital
  | print
deriving DecidableEq

/-- The arguments handed to render_template by create_receipt_email: the
template variant plus every substituted variable (the wall-clock
receipt_date is passed in by the caller as now). -/
structure RenderedEmail where
  template : Template
  recipient_name : String
  magazine_name : String
  purchase_amount : String
  purchase_date : String
  quantity : Int
  transaction_id : String
  edition : String
  digital_link : String
  digital_username : String
  digital_password : String
  receipt_date : String
  sender_name : String
deriving DecidableEq

/-- One outbound network attempt recorded against the Brevo API:
the SendSmtpEmail payload of api_instance.send_transac_email. -/
structure GatewayCall where
  recipient : String
  subject : String
  body : RenderedEmail
deriving DecidableEq

/-- The (success, message_id, error_message) tuple returned by
EmailService.send_email. -/
structure SendResult where
  success : Bool
  message_id : Option String
  error_message : Option String
deriving DecidableEq

/-- The environment-derived fields of EmailService.__init__; api_instance is
initialized exactly when brevo_api_key is non-empty. -/
structure EmailConfig where
  brevo_api_key : String
  sender_email : String
  sender_name : String
  magazine_name : String
  purchase_amount : String
deriving DecidableEq

/-- EmailService.is_configured: API key and sender address both present. -/
def is_configured (svc : EmailConfig) : Bool :=
  svc.brevo_api_key ≠ "" && svc.sender_email ≠ ""

/-- EmailService.create_receipt_email: picks the digital template exactly
when edition is truthy and lower-cases to "digital", and fills in the
template variables with the or-defaults from the source. -/
def create_receipt_email (svc : EmailConfig) (now : String)
    (recipient_name magazine_name purchase_amount purchase_date : String)
    (quantity : Int) (transaction_id edition : Option String)
    (digital_link digital_username digital_password : Option String) :
    RenderedEmail :=
  let ed := edition.getD ""
  let template :=
    if ed ≠ "" ∧ pyLower ed = "digital" then Template.digital else Template.print
  { template := template
    recipient_name := recipient_name
    magazine_name := magazine_name
    purchase_amount := purchase_amount
    purchase_date := purchase_date
    quantity := quantity
    transaction_id := transaction_id.getD "N/A"
    edition := if ed = "" then "print" else ed
    digital_link := digital_link.getD ""
    digital_username := digital_username.getD ""
    digital_password := digital_password.getD ""
    receipt_date := now
    sender_name := svc.sender_name }

/-- EmailService.send_email: fails fast (no network attempt) exactly when the
API client was never initialized, i.e. when the API key is empty; otherwise
records one outbound call and maps the oracle reply to the result tuple. -/
def send_email (svc : EmailConfig) (api : Nat → ApiResult)
    (calls : List GatewayCall) (recipient_email subject : String)
    (html : RenderedEmail) : SendResult × List GatewayCall :=
  if svc.brevo_api_key = "" then
    (⟨false, none, some "Brevo client not initialized. Check API key."⟩, calls)
  else
    let calls2 := calls ++ [⟨recipient_email, subject, html⟩]
    match api calls.length with
    | ApiResult.ok mid => (⟨true, mid, none⟩, calls2)
    | ApiResult.apiErr d =>
      (⟨false, none, some ("Brevo API Exception: " ++ d)⟩, calls2)
    | ApiResult.transportErr d =>
      (⟨false, none,
        some ("Failed to send email to " ++ recipient_email ++ ": " ++ d)⟩, calls2)

/-- EmailService.send_single_receipt: builds the subject, renders the
receipt, and delegates to send_email. -/
def send_single_receipt (svc : EmailConfig) (api : Nat → ApiResult)
    (calls : List GatewayCall) (now : String)
    (recipient_email recipient_name magazine_name purchase_amount
     purchase_date : String) (quantity : Int)
    (transaction_id edition digital_link digital_username digital_password :
     Option String) : SendResult × List GatewayCall :=
  let subject := "Receipt for " ++ magazine_name ++ " - " ++ svc.sender_name
  let html := create_receipt_email svc now recipient_name magazine_name
    purchase_amount purchase_date quantity transaction_id edition
    digital_link digital_username digital_password
  send_email svc api calls recipient_email subject html

/- ## Bulk pipeline (EmailService.send_bulk_receipts) -/

/-- One parsed CSV data row; a field is none when its column is absent. -/
structure CsvRow where
  email : Option String
  name : Option String
  purchase_date : Option String
  quantity : Option String
  edition : Option String
  link : Option String
  username : Option String
  password : Option String
deriving DecidableEq

/-- One element of the results list of send_bulk_receipts:
(recipient_email, recipient_name, success, message_id, error_message). -/
structure Outcome where
  recipient_email : String
  recipient_name : String
  success : Bool
  message_id : Option String
  error_message : Option String
deriving DecidableEq

/-- The loop state of send_bulk_receipts, extended with the observable
network attempts and the number of uuid4 draws made so far. -/
structure BulkState where
  success : Nat
  failed : Nat
  results : List Outcome
  calls : List GatewayCall
  uuidCount : Nat
deriving DecidableEq

/-- The argument handed to int() for the quantity column:
row.get('quantity', '1').strip() or '1'. -/
def qnorm (row : CsvRow) : String :=
  let s := pyStrip (row.quantity.getD "1")
  if s = "" then "1" else s

/-- The normalized edition of a bulk row:
row.get('edition', 'print').lower().strip(), coerced to "print" when it is
neither "digital" nor "print". -/
def editionNorm (row : CsvRow) : String :=
  let e := pyStrip (pyLower (row.edition.getD "print"))
  if e = "digital" ∨ e = "print" then e else "print"

/-- One iteration of the send_bulk_receipts loop.  An unparsable quantity
raises ValueError inside the try, and the except handler increments the
failed counter once but appends the same outcome twice (the duplicated
append at email_service.py lines 206-207 is reproduced faithfully). -/
def processRow (svc : EmailConfig) (api : Nat → ApiResult)
    (uuidHex : Nat → String) (now : String) (st : BulkState) (row : CsvRow) :
    BulkState :=
  let recipient_email := pyStrip (row.email.getD "")
  let recipient_name := pyStrip (row.name.getD "")
  let purchase_date := pyStrip (row.purchase_date.getD "")
  match pyInt (qnorm row) with
  | none =>
    let msg := "Error processing row: invalid literal for int() with base 10: '"
      ++ qnorm row ++ "'"
    let o : Outcome := ⟨recipient_email, recipient_name, false, none, some msg⟩
    ⟨st.success, st.failed + 1, st.results ++ [o, o], st.calls, st.uuidCount⟩
  | some quantity =>
    let edition := editionNorm row
    let digital_link :=
      if edition = "digital" then some (pyStrip (row.link.getD "")) else none
    let digital_username :=
      if edition = "digital" then some (pyStrip (row.username.getD "")) else none
    let digital_password :=
      if edition = "digital" then some (pyStrip (row.password.getD "")) else none
    if ¬(recipient_email ≠ "" ∧ recipient_name ≠ "" ∧ purchase_date ≠ "") then
      ⟨st.success, st.failed + 1,
        st.results ++ [⟨recipient_email, recipient_name, false, none,
          some "Missing required fields"⟩],
        st.calls, st.uuidCount⟩
    else if edition = "digital" ∧
        ¬(digital_link.getD "" ≠ "" ∧ digital_username.getD "" ≠ "" ∧
          digital_password.getD "" ≠ "") then
      ⟨st.success, st.failed + 1,
        st.results ++ [⟨recipient_email, recipient_name, false, none,
          some "Missing digital access credentials"⟩],
        st.calls, st.uuidCount⟩
    else
      let transaction_id := "SNX-" ++ pyUpper (strTake (uuidHex st.uuidCount) 12)
      let sent := send_single_receipt svc api st.calls now recipient_email
        recipient_name svc.magazine_name svc.purchase_amount purchase_date
        quantity (some transaction_id) (some edition) digital_link
        digital_username digital_password
      ⟨st.success + (if sent.1.success then 1 else 0),
        st.failed + (if sent.1.success then 0 else 1),
        st.results ++ [⟨recipient_email, recipient_name, sent.1.success,
          sent.1.message_id, sent.1.error_message⟩],
        sent.2, st.uuidCount + 1⟩

/-- EmailService.send_bulk_receipts: folds the per-row step over the parsed
rows starting from the empty counters. -/
def send_bulk_receipts (svc : EmailConfig) (api : Nat → ApiResult)
    (uuidHex : Nat → String) (now : String) (rows : List CsvRow) : BulkState :=
  rows.foldl (processRow svc api uuidHex now) ⟨0, 0, [], [], 0⟩

/- ## app.py helpers -/

/-- app.extract_transaction_id: a falsy message_id yields None; one that
starts with '<' and contains '@' yields message_id[1:].split('@')[0], i.e.
everything after the '<' up to the first '@'; anything else is returned
verbatim. -/
def extract_transaction_id (message_id : Option String) : Option String :=
  match message_id with
  | none => none
  | some s =>
    match s.data with
    | [] => none
    | c :: rest =>
      if c = '<' && (c :: rest).contains '@' then
        some ⟨rest.takeWhile (fun d => d ≠ '@')⟩
      else some s

/-- app.sanitize_input: empty input stays empty, otherwise strip and
truncate to max_length characters. -/
def sanitize_input (text : String) (max_length : Nat) : String :=
  if text = "" then "" else strTake (pyStrip text) max_length

/-- Splits a character list at every occurrence of sep, like Python
str.split(sep); always returns at least one (possibly empty) piece. -/
def splitOnChar (sep : Char) : List Char → List (List Char)
  | [] => [[]]
  | c :: rest =>
    let r := splitOnChar sep rest
    if c = sep then [] :: r
    else
      match r with
      | [] => [[c]]
      | h :: t => (c :: h) :: t

/-- Character class of the local part of app.validate_email's regex. -/
def classA (c : Char) : Bool :=
  c.isAlpha || c.isDigit || c = '.' || c = '_' || c = '%' || c = '+' || c = '-'

/-- Character class of the domain part of app.validate_email's regex. -/
def classB (c : Char) : Bool := c.isAlpha || c.isDigit || c = '.' || c = '-'

/-- app.validate_email: the anchored regex
one-or-more classA, '@', one-or-more classB, '.', two-or-more letters.
Since both classes exclude '@', a match has exactly one '@', and the final
dot of the domain must be followed by the all-letter tld. -/
def validate_email (email : String) : Bool :=
  match splitOnChar '@' email.data with
  | [lo, dom] =>
    !lo.isEmpty && lo.all classA &&
    (let parts := splitOnChar '.' dom
     let tld := (parts.getLastD [])
     decide (parts.length ≥ 2) && !(parts.dropLast = [[]] : Bool) &&
       (parts.dropLast.all (fun p => p.all classB)) &&
       decide (tld.length ≥ 2) && tld.all Char.isAlpha)
  | _ => false

/- ## Persistence layer (models.SentEmail and the app routes) -/

/-- A UTC timestamp as stored in the sent_at column. -/
structure DateTime where
  year : Nat
  month : Nat
  day : Nat
  hour : Nat
  minute : Nat
  second : Nat
deriving DecidableEq

/-- Lexicographic key of a timestamp, used to model ordering by sent_at. -/
def DateTime.key (d : DateTime) : Nat :=
  ((((d.year * 100 + d.month) * 100 + d.day) * 100 + d.hour) * 100 + d.minute)
    * 100 + d.second

/-- One row of the sent_emails table (models.SentEmail), with the sender's
username denormalized for to_dict's sent_by join. -/
structure SentEmailRecord where
  id : Nat
  user_id : Nat
  recipient_email : String
  recipient_name : String
  purchase_date : Option String
  edition : String
  digital_link : Option String
  digital_username : Option String
  digital_password : Option String
  sent_at : DateTime
  transaction_id : Option String
  message_id : Option String
  status : String
  error_message : Option String
  sent_by : String
deriving DecidableEq

/-- One element of the recipients list built by the first CSV pass of the
send_bulk route (app.py lines 439-455); note this pass applies no strip. -/
structure RecipientData where
  email : Option String
  name : Option String
  purchase_date : Option String
  edition : String
  digital_link : Option String
  digital_username : Option String
  digital_password : Option String
deriving DecidableEq

/-- The recipient_data dict built per row by the send_bulk route. -/
def parseRecipient (row : CsvRow) : RecipientData :=
  let e := pyLower (row.edition.getD "print")
  let edition := if e = "digital" ∨ e = "print" then e else "print"
  { email := row.email
    name := row.name
    purchase_date := row.purchase_date
    edition := edition
    digital_link := if edition = "digital" then some (row.link.getD "") else none
    digital_username :=
      if edition = "digital" then some (row.username.getD "") else none
    digital_password :=
      if edition = "digital" then some (row.password.getD "") else none }

/-- The SentEmail row the send_bulk route constructs for outcome i; when i
is beyond the recipients list the route falls back to an empty dict, whose
gets yield the documented defaults. -/
def buildBulkRecord (userId : Nat) (username : String)
    (recipients : List RecipientData) (nowDT : DateTime) (nowDate : String)
    (i : Nat) (o : Outcome) : SentEmailRecord :=
  let rd := recipients.get? i
  { id := i
    user_id := userId
    recipient_email := o.recipient_email
    recipient_name := o.recipient_name
    purchase_date :=
      match rd with
      | some r => r.purchase_date
      | none => some nowDate
    edition :=
      match rd with
      | some r => r.edition
      | none => "print"
    digital_link := (rd.map RecipientData.digital_link).join
    digital_username := (rd.map RecipientData.digital_username).join
    digital_password := (rd.map RecipientData.digital_password).join
    sent_at := nowDT
    transaction_id := extract_transaction_id o.message_id
    message_id := o.message_id
    status := if o.success then "success" else "failed"
    error_message := o.error_message
    sent_by := username }

/-- The db.session.add loop of the send_bulk route: addFails i models an
exception raised while adding the record of outcome i; the first failure
aborts the loop (none).  On success the pending records are returned in
order. -/
def addRecords (addFails : Nat → Bool) (userId : Nat) (username : String)
    (recipients : List RecipientData) (nowDT : DateTime) (nowDate : String) :
    Nat → List Outcome → Option (List SentEmailRecord)
  | _, [] => some []
  | i, o :: rest =>
    if addFails i then none
    else
      match addRecords addFails userId username recipients nowDT nowDate
          (i + 1) rest with
      | none => none
      | some rs =>
        some (buildBulkRecord userId username recipients nowDT nowDate i o :: rs)

/-- The whole persistence block of the send_bulk route: one try around the
add loop and the single commit; any exception is caught, the session is
rolled back, and nothing of the batch is persisted. -/
def logBulkEmails (addFails : Nat → Bool) (commitFails : Bool) (userId : Nat)
    (username : String) (recipients : List RecipientData) (nowDT : DateTime)
    (nowDate : String) (outcomes : List Outcome) : List SentEmailRecord :=
  match addRecords addFails userId username recipients nowDT nowDate 0 outcomes with
  | none => []
  | some rs => if commitFails then [] else rs

/-- Observable effects of one POST to the send_bulk route: the flash counts,
the outcome list, the committed audit records, and the network attempts. -/
structure BulkRouteResult where
  success : Nat
  failed : Nat
  outcomes : List Outcome
  persisted : List SentEmailRecord
  calls : List GatewayCall
deriving DecidableEq

/-- The send_bulk route: first CSV pass building recipients, second pass
through EmailService.send_bulk_receipts, then the persistence block. -/
def send_bulk_route (svc : EmailConfig) (api : Nat → ApiResult)
    (uuidHex : Nat → String) (now : String) (userId : Nat) (username : String)
    (nowDT : DateTime) (nowDate : String) (addFails : Nat → Bool)
    (commitFails : Bool) (rows : List CsvRow) : BulkRouteResult :=
  let recipients := rows.map parseRecipient
  let st := send_bulk_receipts svc api uuidHex now rows
  let persisted := logBulkEmails addFails commitFails userId username
    recipients nowDT nowDate st.results
  ⟨st.success, st.failed, st.results, persisted, st.calls⟩

/- ## Single-send route (app.send_single) -/

/-- The form fields of the send_single route, each defaulting to "". -/
structure SingleForm where
  email : String
  name : String
  purchase_date : String
  edition : String
  digital_link : String
  digital_username : String
  digital_password : String
deriving DecidableEq

/-- Observable result of one POST to send_single: an early validation flash,
or the send result together with the record the route tried to log (none
when the database raised and the route rolled back). -/
inductive SingleRouteResult where
  | flashError (msg : String)
  | done (success : Bool) (record : Option SentEmailRecord)
deriving DecidableEq

/-- The send_single route.  Note that the call into
EmailService.send_single_receipt at app.py lines 350-356 passes only the
email, name, magazine, amount and date, leaving quantity, transaction_id,
edition and the digital fields at their Python defaults. -/
def send_single_route (svc : EmailConfig) (api : Nat → ApiResult)
    (now : String) (userId : Nat) (username : String) (nowDT : DateTime)
    (logFails : Bool) (form : SingleForm) :
    SingleRouteResult × List GatewayCall :=
  let recipient_email := sanitize_input form.email 500
  let recipient_name := sanitize_input form.name 500
  let purchase_date := sanitize_input form.purchase_date 500
  let edition := sanitize_input form.edition 500
  let digital_link :=
    if edition = "digital" then some (sanitize_input form.digital_link 500) else none
  let digital_username :=
    if edition = "digital" then some (sanitize_input form.digital_username 500) else none
  let digital_password :=
    if edition = "digital" then some (sanitize_input form.digital_password 500) else none
  if ¬(recipient_email ≠ "" ∧ recipient_name ≠ "" ∧ purchase_date ≠ "" ∧
      edition ≠ "") then
    (SingleRouteResult.flashError "All required fields must be filled", [])
  else if ¬(edition = "digital" ∨ edition = "print") then
    (SingleRouteResult.flashError "Invalid edition type", [])
  else if edition = "digital" ∧
      ¬(digital_link.getD "" ≠ "" ∧ digital_username.getD "" ≠ "" ∧
        digital_password.getD "" ≠ "") then
    (SingleRouteResult.flashError
      "Digital edition requires link, username, and password", [])
  else if ¬ validate_email recipient_email then
    (SingleRouteResult.flashError "Invalid email address format", [])
  else
    let sent := send_single_receipt svc api [] now recipient_email
      recipient_name svc.magazine_name svc.purchase_amount purchase_date 1
      none none none none none
    let transaction_id := extract_transaction_id sent.1.message_id
    let record : SentEmailRecord :=
      { id := 0
        user_id := userId
        recipient_email := recipient_email
        recipient_name := recipient_name
        purchase_date := some purchase_date
        edition := edition
        digital_link := digital_link
        digital_username := digital_username
        digital_password := digital_password
        sent_at := nowDT
        transaction_id := transaction_id
        message_id := sent.1.message_id
        status := if sent.1.success then "success" else "failed"
        error_message := sent.1.error_message
        sent_by := username }
    (SingleRouteResult.done sent.1.success
      (if logFails then none else some record), sent.2)

/- ## CSV export (app.export_sent_emails and models.SentEmail.to_dict) -/

/-- The decimal digit character of n mod 10. -/
def digitChar (n : Nat) : Char := Char.ofNat (48 + n % 10)

/-- Zero-padded two-digit rendering, as strftime %m %d %H %M %S produce for
in-range values. -/
def pad2 (n : Nat) : String := ⟨[digitChar (n / 10), digitChar n]⟩

/-- Zero-padded four-digit rendering, as strftime %Y produces for years up
to 9999. -/
def pad4 (n : Nat) : String :=
  ⟨[digitChar (n / 1000), digitChar (n / 100), digitChar (n / 10), digitChar n]⟩

/-- to_dict's sent_at value: strftime with format %Y-%m-%d %H:%M:%S. -/
def formatSentAt (d : DateTime) : String :=
  pad4 d.year ++ "-" ++ pad2 d.month ++ "-" ++ pad2 d.day ++ " " ++
    pad2 d.hour ++ ":" ++ pad2 d.minute ++ ":" ++ pad2 d.second

/-- Recognizer for the textual shape YYYY-MM-DD HH:MM:SS. -/
def tsShape (s : String) : Bool :=
  match s.data with
  | [y1, y2, y3, y4, c1, m1, m2, c2, d1, d2, c3, h1, h2, c4, n1, n2, c5, s1, s2] =>
    [y1, y2, y3, y4, m1, m2, d1, d2, h1, h2, n1, n2, s1, s2].all Char.isDigit &&
      c1 = '-' && c2 = '-' && c3 = ' ' && c4 = ':' && c5 = ':'
  | _ => false

/-- The 13 header cells written first by export_sent_emails. -/
def exportHeader : List String :=
  ["ID", "Recipient Email", "Recipient Name", "Purchase Date", "Edition",
   "Transaction ID", "Sent At", "Status", "Error Message", "Sent By",
   "Digital Link", "Digital Username", "Digital Password"]

/-- One CSV data row, drawn from to_dict in the order the writer emits the
cells; optional columns fall back to '' exactly as to_dict's or-defaults do. -/
def recordToCsvRow (r : SentEmailRecord) : List String :=
  [toString r.id, r.recipient_email, r.recipient_name,
   r.purchase_date.getD "", r.edition, r.transaction_id.getD "",
   formatSentAt r.sent_at, r.status, r.error_message.getD "", r.sent_by,
   r.digital_link.getD "", r.digital_username.getD "", r.digital_password.getD ""]

/-- The four query parameters of the export route, each defaulting to "". -/
structure ExportFilters where
  status : String
  date_from : String
  date_to : String
  search : String
deriving DecidableEq

/-- Digits-only string to Nat. -/
def natOfDigits (l : List Char) : Option Nat :=
  if !l.isEmpty && l.all Char.isDigit then some (digitsToNat l) else none

/-- Gregorian leap-year rule, as the datetime module applies it. -/
def isLeapYear (y : Nat) : Bool :=
  y % 4 = 0 && (y % 100 ≠ 0 || y % 400 = 0)

/-- Number of days of a month, as the datetime constructor validates it. -/
def daysInMonth (y m : Nat) : Nat :=
  if m = 2 then (if isLeapYear y then 29 else 28)
  else if m = 4 ∨ m = 6 ∨ m = 9 ∨ m = 11 then 30
  else 31

/-- Model of datetime.strptime(s, '%Y-%m-%d'): exactly four year digits,
one or two month and day digits, and a datetime-valid calendar date
(year at least 1, month 1-12, day within the month, leap years included);
none where strptime or the datetime constructor raises. -/
def parseDateYMD (s : String) : Option DateTime :=
  match splitOnChar '-' s.data with
  | [y, m, d] =>
    if y.length = 4 && (1 ≤ m.length && m.length ≤ 2) &&
        (1 ≤ d.length && d.length ≤ 2) then
      match natOfDigits y, natOfDigits m, natOfDigits d with
      | some yn, some mn, some dn =>
        if 1 ≤ yn ∧ 1 ≤ mn ∧ mn ≤ 12 ∧ 1 ≤ dn ∧ dn ≤ daysInMonth yn mn then
          some ⟨yn, mn, dn, 0, 0, 0⟩
        else none
      | _, _, _ => none
    else none
  | _ => none

/-- Whether pat occurs at the start of hay. -/
def beginsWith : List Char → List Char → Bool
  | _, [] => true
  | [], _ => false
  | c :: cs, d :: ds => c = d && beginsWith cs ds

/-- Whether pat occurs anywhere inside hay (SQL LIKE with wildcards on both
sides). -/
def subIn (pat : List Char) : List Char → Bool
  | [] => pat.isEmpty
  | c :: cs => beginsWith (c :: cs) pat || subIn pat cs

/-- Case-insensitive substring match, modelling ilike('%search%'). -/
def ilikeContains (field search : String) : Bool :=
  subIn (pyLower search).data (pyLower field).data

/-- The filter chain both the sent_emails view and the export route apply:
status equality when a status is given, inclusive sent_at range bounds when
the dates parse (a failed parse silently drops that bound), and the
case-insensitive search over recipient email and name. -/
def matchesFilters (f : ExportFilters) (r : SentEmailRecord) : Bool :=
  (f.status = "" || r.status = f.status) &&
  (match (if f.date_from = "" then none else parseDateYMD f.date_from) with
   | some dfrom => decide (dfrom.key ≤ r.sent_at.key)
   | none => true) &&
  (match (if f.date_to = "" then none else parseDateYMD f.date_to) with
   | some dto =>
     decide (r.sent_at.key ≤ (DateTime.key ⟨dto.year, dto.month, dto.day, 23, 59, 59⟩))
   | none => true) &&
  (f.search = "" || ilikeContains r.recipient_email f.search ||
    ilikeContains r.recipient_name f.search)

/-- The order_by(sent_at.desc()) relation: earlier output rows have the
later (or equal) timestamp. -/
def sentAtGe (a b : SentEmailRecord) : Prop := b.sent_at.key ≤ a.sent_at.key

instance : DecidableRel sentAtGe := fun _ _ => Nat.decLe _ _

instance : IsTotal SentEmailRecord sentAtGe :=
  ⟨fun a b => Nat.le_total b.sent_at.key a.sent_at.key⟩

instance : IsTrans SentEmailRecord sentAtGe :=
  ⟨fun _ _ _ hab hbc => Nat.le_trans hbc hab⟩

/-- The record list the export query returns: the table filtered by the
request filters and ordered by sent_at descending. -/
def exportRecords (db : List SentEmailRecord) (f : ExportFilters) :
    List SentEmailRecord :=
  List.insertionSort sentAtGe (db.filter (matchesFilters f))

/-- app.export_sent_emails: the emitted CSV as a list of rows of cells,
header first, then one row per matching record. -/
def export_sent_emails (db : List SentEmailRecord) (f : ExportFilters) :
    List (List String) :=
  exportHeader :: (exportRecords db f).map recordToCsvRow

/- ## Concrete fixtures for the claim checks -/

/-- A fully configured EmailService environment. -/
def svcCfg : EmailConfig := ⟨"KEY", "store@example.com", "Store", "Mag", "$10"⟩

/-- API key present but sender address missing: is_configured is false yet
the Brevo client is initialized. -/
def svcNoSender : EmailConfig := ⟨"KEY", "", "Store", "Mag", "$10"⟩

/-- API key missing: the Brevo client is never initialized. -/
def svcNoKey : EmailConfig := ⟨"", "store@example.com", "Store", "Mag", "$10"⟩

/-- A remote API that always succeeds with a relay-shaped message id. -/
def apiRelay : Nat → ApiResult :=
  fun _ => ApiResult.ok (some "<ABC123@smtp-relay.mailin.fr>")

/-- A fixed uuid4().hex oracle (32 lower-case hex characters). -/
def uuidFix : Nat → String := fun _ => "0123456789abcdef0123456789abcdef"

/-- A fixed wall-clock timestamp. -/
def dtFix : DateTime := ⟨2024, 1, 1, 0, 0, 0⟩

/-- A throwaway rendered body used to instantiate send_email. -/
def bodyFix : RenderedEmail :=
  ⟨Template.print, "", "", "", "", 1, "N/A", "print", "", "", "", "", ""⟩

/-- Persistence oracle with no failures. -/
def noFail : Nat → Bool := fun _ => false

/-- Persistence oracle failing exactly on the first record. -/
def failAt0 : Nat → Bool := fun i => i == 0

/-- A row whose quantity column does not parse as an integer. -/
def rowBadQuantity : CsvRow :=
  ⟨some "a@example.com", some "Al", some "2024-01-01", some "oops",
   none, none, none, none⟩

/-- A second row with an unparsable quantity. -/
def rowBadQuantity2 : CsvRow :=
  ⟨some "b@example.com", some "Bea", some "2024-02-02", some "two",
   none, none, none, none⟩

/-- A plain valid print-edition row. -/
def rowPlain : CsvRow :=
  ⟨some "c@example.com", some "Cal", some "2024-03-03", none,
   none, none, none, none⟩

/-- A digital row with an empty link and also an empty email address. -/
def rowNoEmailDigital : CsvRow :=
  ⟨some "", some "Bob", some "2024-01-01", none, some "digital",
   some "", some "user1", some "pw1"⟩

/-- A digital row with all required fields but an empty password. -/
def rowDigitalNoPw : CsvRow :=
  ⟨some "d@example.com", some "Dee", some "2024-04-04", some "2",
   some "digital", some "http x", some "user2", some ""⟩

/-- A valid digital submission to the send_single form. -/
def formDigital : SingleForm :=
  ⟨"a@example.com", "Alice", "2024-01-01", "digital", "http x", "u1", "p1"⟩

/-- The audit record the send_single route logs for formDigital: it claims
edition digital with credentials although the sent email used the print
template without them. -/
def recC7 : SentEmailRecord :=
  ⟨0, 1, "a@example.com", "Alice", some "2024-01-01", "digital",
   some "http x", some "u1", some "p1", dtFix, some "ABC123",
   some "<ABC123@smtp-relay.mailin.fr>", "success", none, "admin"⟩

/-- Two successful outcomes of a two-row batch. -/
def outSuccessA : Outcome := ⟨"a@example.com", "Al", true, some "<A1@h>", none⟩

/-- Second successful outcome. -/
def outSuccessB : Outcome := ⟨"b@example.com", "Bea", true, some "<B2@h>", none⟩

/-- Recipient-data entries matching a two-row batch. -/
def recipsFix : List RecipientData := [parseRecipient rowPlain, parseRecipient rowPlain]

/-- A persisted failed record for the export fixtures. -/
def recFail : SentEmailRecord :=
  ⟨1, 1, "a@example.com", "Al", some "2024-01-01", "print", none, none, none,
   ⟨2024, 1, 2, 10, 0, 0⟩, none, none, "failed", some "err", "admin"⟩

/-- A persisted successful record for the export fixtures. -/
def recOk : SentEmailRecord :=
  ⟨2, 1, "b@example.com", "Bea", some "2024-01-01", "print", none, none, none,
   ⟨2024, 1, 3, 10, 0, 0⟩, some "X", some "<X@h>", "success", none, "admin"⟩

/-- A two-record table mixing a failure and a success. -/
def dbFix : List SentEmailRecord := [recFail, recOk]

/-- Export filters selecting only failed records. -/
def filtersFailed : ExportFilters := ⟨"failed", "", "", ""⟩

/- ## Claim theorems -/

/-- C1: the claim states that send_bulk_receipts returns exactly R outcomes
for R data rows, aligned 1:1.  The code violates this: the per-row except
handler at email_service.py lines 206-207 appends the same failure outcome
twice, so a single row whose quantity does not parse yields two outcomes.
This theorem evaluates the pipeline at that failing input: one input row,
two outcomes.  The failed counter is incremented only once by the same
handler, confirming the duplicated append is a slip rather than intent. -/
theorem C1_duplicate_outcome_on_bad_quantity :
    [rowBadQuantity].length = 1 ∧
    (send_bulk_receipts svcCfg apiRelay uuidFix "2024-01-01 00:00:00"
      [rowBadQuantity]).results.length = 2 ∧
    (send_bulk_receipts svcCfg apiRelay uuidFix "2024-01-01 00:00:00"
      [rowBadQuantity]).failed = 1 := by
  decide

/-- C6: counterexample.  The claim states that a present but unparsable
quantity yields exactly one failed outcome for that row without misaligning
the counters against the outcome list.  In the code the except handler
records the row's failure outcome twice while incrementing failed once, so
success + failed no longer equals the length of the outcome list. -/
theorem C6_two_outcomes_for_unparsable_quantity :
    (send_bulk_receipts svcCfg apiRelay uuidFix "2024-01-01 00:00:00"
      [rowBadQuantity2]).results =
      [⟨"b@example.com", "Bea", false, none,
        some "Error processing row: invalid literal for int() with base 10: 'two'"⟩,
       ⟨"b@example.com", "Bea", false, none,
        some "Error processing row: invalid literal for int() with base 10: 'two'"⟩] ∧
    (send_bulk_receipts svcCfg apiRelay uuidFix "2024-01-01 00:00:00"
      [rowBadQuantity2]).failed = 1 ∧
    (send_bulk_receipts svcCfg apiRelay uuidFix "2024-01-01 00:00:00"
      [rowBadQuantity2]).success +
      (send_bulk_receipts svcCfg apiRelay uuidFix "2024-01-01 00:00:00"
        [rowBadQuantity2]).failed ≠
      (send_bulk_receipts svcCfg apiRelay uuidFix "2024-01-01 00:00:00"
        [rowBadQuantity2]).results.length := by
  decide

/-- C7: the claim states that every dispatched receipt uses the template
variant selected by the row's edition, including single sends with edition
digital.  The code violates this: app.py lines 350-356 call
send_single_receipt without forwarding edition or the digital fields, so a
digital single send renders the print template with empty digital fields,
while the audit record logged for the very same request still claims
edition digital with credentials. -/
theorem C7_single_send_digital_uses_print_template :
    formDigital.edition = "digital" ∧
    ((send_single_route svcCfg apiRelay "2024-01-01 00:00:00" 1 "admin" dtFix
      false formDigital).2.map (fun c => c.body.template)) = [Template.print] ∧
    ((send_single_route svcCfg apiRelay "2024-01-01 00:00:00" 1 "admin" dtFix
      false formDigital).2.map (fun c => c.body.digital_link)) = [""] ∧
    (send_single_route svcCfg apiRelay "2024-01-01 00:00:00" 1 "admin" dtFix
      false formDigital).1 = SingleRouteResult.done true (some recC7) := by
  decide

/-- C10: a CSV with a header row and zero data rows yields success count 0,
failed count 0, an empty outcome list, no Gateway invocation, and no
persisted SentEmail record, for every configuration, oracle, user and
persistence behavior. -/
theorem C10_empty_csv_no_effects (svc : EmailConfig) (api : Nat → ApiResult)
    (uuidHex : Nat → String) (now : String) (userId : Nat) (username : String)
    (nowDT : DateTime) (nowDate : String) (addFails : Nat → Bool)
    (commitFails : Bool) :
    send_bulk_route svc api uuidHex now userId username nowDT nowDate addFails
      commitFails [] = ⟨0, 0, [], [], []⟩ := by
  cases commitFails <;> rfl

/-- C2: counterexample.  The claim states the pre-generated bulk transaction
id (SNX- plus 12 upper-case hex) is attached to the row's outcome.  In the
code the id only reaches the rendered email body; the outcome tuple carries
no transaction id, and the record the bulk route persists derives its
transaction id from the gateway message id instead (here ABC123, not the
generated SNX-0123456789AB). -/
theorem C2_counterexample :
    ((send_bulk_receipts svcCfg apiRelay uuidFix "2024-01-01 00:00:00"
      [rowPlain]).calls.map (fun c => c.body.transaction_id)) =
      ["SNX-0123456789AB"] ∧
    (send_bulk_receipts svcCfg apiRelay uuidFix "2024-01-01 00:00:00"
      [rowPlain]).results =
      [⟨"c@example.com", "Cal", true, some "<ABC123@smtp-relay.mailin.fr>", none⟩] ∧
    ((logBulkEmails noFail false 1 "admin" [parseRecipient rowPlain] dtFix
      "2024-01-01"
      (send_bulk_receipts svcCfg apiRelay uuidFix "2024-01-01 00:00:00"
        [rowPlain]).results).map SentEmailRecord.transaction_id) =
      [some "ABC123"] ∧
    ("ABC123" : String) ≠ "SNX-0123456789AB" := by
  decide

/-- C3: counterexample.  The claim states a persistence failure on one row's
audit record is caught and the remaining rows' records are still written.
In the code the whole add loop and the single commit sit inside one try
(app.py lines 461-492), so a failure while adding the first record rolls
back the batch and the second row's record is never persisted, although
with no failure both records are written. -/
theorem C3_counterexample :
    logBulkEmails failAt0 false 7 "admin" recipsFix dtFix "2024-01-01"
      [outSuccessA, outSuccessB] = [] ∧
    (logBulkEmails noFail false 7 "admin" recipsFix dtFix "2024-01-01"
      [outSuccessA, outSuccessB]).length = 2 := by
  decide

/-- C4: counterexample.  The claim states a message_id with an embedded
bracketed transaction id yields the inner value.  extract_transaction_id
never strips brackets: the relay-shaped id keeps them verbatim in the slice
before the first at-sign. -/
theorem C4_counterexample :
    extract_transaction_id (some "<[ABC123]@smtp-relay.mailin.fr>") =
      some "[ABC123]" ∧
    ("[ABC123]" : String) ≠ "ABC123" := by
  decide

/-- C5: counterexample.  The claim states that whenever the gateway is not
configured (API credential and sender address not both present) every send
fails fast with no network attempt and a batch yields zero successes.  With
the API key present but the sender address empty, is_configured is false,
yet send_bulk_receipts still performs a network attempt for a valid row and
the row can succeed. -/
theorem C5_counterexample :
    is_configured svcNoSender = false ∧
    (send_bulk_receipts svcNoSender apiRelay uuidFix "2024-01-01 00:00:00"
      [rowPlain]).calls.length = 1 ∧
    (send_bulk_receipts svcNoSender apiRelay uuidFix "2024-01-01 00:00:00"
      [rowPlain]).success = 1 := by
  decide

/-- C8: counterexample.  The claim states every digital row with a missing
credential is recorded with a failure naming the missing digital access
credentials.  A digital row that also lacks a required field (here the
email) is recorded with the earlier Missing required fields error instead;
the Gateway is still never invoked. -/
theorem C8_counterexample :
    ((send_bulk_receipts svcCfg apiRelay uuidFix "2024-01-01 00:00:00"
      [rowNoEmailDigital]).results.map Outcome.error_message) =
      [some "Missing required fields"] ∧
    (send_bulk_receipts svcCfg apiRelay uuidFix "2024-01-01 00:00:00"
      [rowNoEmailDigital]).calls = [] ∧
    ("Missing required fields" : String) ≠ "Missing digital access credentials" := by
  decide

/- ## Helper lemmas -/

/-- Every branch of the bulk loop body leaves the success counter and the
call list unchanged and adds one failure when the API key is empty. -/
theorem processRow_noKey (svc : EmailConfig) (api : Nat → ApiResult)
    (uuidHex : Nat → String) (now : String) (st : BulkState) (row : CsvRow)
    (hkey : svc.brevo_api_key = "") :
    (processRow svc api uuidHex now st row).success = st.success ∧
    (processRow svc api uuidHex now st row).failed = st.failed + 1 ∧
    (processRow svc api uuidHex now st row).calls = st.calls := by
  unfold processRow
  cases hq : pyInt (qnorm row) with
  | none => simp [hq]
  | some q =>
    simp only [hq]
    split_ifs <;> simp_all [send_single_receipt, send_email]

/-- Folding the bulk loop with an empty API key accumulates one failure per
row, no success and no network attempt, from any starting state. -/
theorem bulk_noKey_aux (svc : EmailConfig) (api : Nat → ApiResult)
    (uuidHex : Nat → String) (now : String) (hkey : svc.brevo_api_key = "") :
    ∀ (rows : List CsvRow) (st : BulkState),
    (rows.foldl (processRow svc api uuidHex now) st).success = st.success ∧
    (rows.foldl (processRow svc api uuidHex now) st).failed = st.failed + rows.length ∧
    (rows.foldl (processRow svc api uuidHex now) st).calls = st.calls := by
  intro rows
  induction rows with
  | nil => intro st; simp
  | cons r rs ih =>
    intro st
    simp only [List.foldl_cons]
    obtain ⟨h1, h2, h3⟩ := ih (processRow svc api uuidHex now st r)
    obtain ⟨p1, p2, p3⟩ := processRow_noKey svc api uuidHex now st r hkey
    refine ⟨by rw [h1, p1], by rw [h2, p2, List.length_cons]; omega,
      by rw [h3, p3]⟩

/-- The add loop of the bulk persistence block aborts (raises) whenever some
outcome within range hits a failing add. -/
theorem addRecords_abort (addFails : Nat → Bool) (userId : Nat)
    (username : String) (recipients : List RecipientData) (nowDT : DateTime)
    (nowDate : String) :
    ∀ (outs : List Outcome) (i0 : Nat),
    (∃ j, j < outs.length ∧ addFails (i0 + j) = true) →
    addRecords addFails userId username recipients nowDT nowDate i0 outs = none := by
  intro outs
  induction outs with
  | nil =>
    intro i0 h
    obtain ⟨j, hj, -⟩ := h
    simp at hj
  | cons o rest ih =>
    intro i0 h
    obtain ⟨j, hj, hf⟩ := h
    unfold addRecords
    by_cases h0 : addFails i0 = true
    · simp [h0]
    · have hj0 : j ≠ 0 := by
        rintro rfl
        exact h0 (by simpa using hf)
      obtain ⟨j1, rfl⟩ : ∃ j1, j = j1 + 1 := ⟨j - 1, by omega⟩
      have hrec : addRecords addFails userId username recipients nowDT nowDate
          (i0 + 1) rest = none := by
        refine ih (i0 + 1) ⟨j1, ?_, ?_⟩
        · simp only [List.length_cons] at hj; omega
        · have : i0 + 1 + j1 = i0 + (j1 + 1) := by omega
          rw [this]; exact hf
      simp [h0, hrec]

/-- takeWhile up to the first separator returns exactly the separator-free
part of the list before it. -/
theorem takeWhile_until (t : List Char) :
    ∀ (l : List Char), (∀ c ∈ l, c ≠ '@') →
    (l ++ '@' :: t).takeWhile (fun d => d ≠ '@') = l := by
  intro l
  induction l with
  | nil => intro _; simp [List.takeWhile_cons]
  | cons c cs ih =>
    intro h
    have hc : c ≠ '@' := h c (by simp)
    have ih2 := ih (fun d hd => h d (by simp [hd]))
    simp only [List.cons_append, List.takeWhile_cons]
    simp only [decide_not] at ih2
    simp [hc, ih2]

/-- extract_transaction_id evaluated through an explicit head split of the
message id. -/
theorem extract_cons (s : String) (c : Char) (tail : List Char)
    (h : s.data = c :: tail) :
    extract_transaction_id (some s) =
      if c = '<' && (c :: tail).contains '@' then
        some ⟨tail.takeWhile (fun d => d ≠ '@')⟩
      else some s := by
  simp only [extract_transaction_id]
  rw [h]

/-- Character order agrees with code point order. -/
theorem char_le_iff (a b : Char) : a ≤ b ↔ a.toNat ≤ b.toNat := Iff.rfl

/-- Char.ofNat round-trips on code points below the surrogate range. -/
theorem char_toNat_ofNat (n : Nat) (h : n < 55296) : (Char.ofNat n).toNat = n := by
  unfold Char.ofNat
  rw [dif_pos (Or.inl h)]
  rfl

/-- Char.isDigit in terms of code points. -/
theorem char_isDigit_iff (c : Char) :
    c.isDigit = true ↔ 48 ≤ c.toNat ∧ c.toNat ≤ 57 := by
  unfold Char.isDigit
  simp only [Bool.and_eq_true, decide_eq_true_eq]
  exact Iff.rfl

/-- ASCII upper-casing maps lower-case hex digits to upper-case hex digits. -/
theorem pyUpperChar_hex (c : Char) (h : isLowerHexDigit c = true) :
    isUpperHexDigit (pyUpperChar c) = true := by
  unfold isLowerHexDigit at h
  simp only [Bool.or_eq_true, Bool.and_eq_true, decide_eq_true_eq] at h
  unfold isUpperHexDigit
  simp only [Bool.or_eq_true, Bool.and_eq_true, decide_eq_true_eq]
  rcases h with hd | hl
  · have hn := (char_isDigit_iff c).mp hd
    have hne : ¬('a' ≤ c ∧ c ≤ 'z') := by
      rintro ⟨ha, -⟩
      have := (char_le_iff _ _).mp ha
      have h97 : ('a').toNat = 97 := by decide
      omega
    unfold pyUpperChar
    rw [if_neg hne]
    exact Or.inl hd
  · have hn : 97 ≤ c.toNat ∧ c.toNat ≤ 102 :=
      ⟨(char_le_iff _ _).mp hl.1, (char_le_iff _ _).mp hl.2⟩
    have hz : 'a' ≤ c ∧ c ≤ 'z' := by
      refine ⟨hl.1, (char_le_iff _ _).mpr ?_⟩
      show c.toNat ≤ 122
      omega
    unfold pyUpperChar
    rw [if_pos hz]
    have hv : (Char.ofNat (c.toNat - 32)).toNat = c.toNat - 32 :=
      char_toNat_ofNat _ (by omega)
    right
    constructor
    · exact (char_le_iff _ _).mpr (by rw [hv]; show 65 ≤ _; omega)
    · exact (char_le_iff _ _).mpr (by rw [hv]; show _ ≤ 70; omega)

/-- The zero-padded rendering always emits a digit character. -/
theorem digitChar_isDigit (n : Nat) : (digitChar n).isDigit = true := by
  obtain ⟨m, hm, hlt⟩ : ∃ m, n % 10 = m ∧ m < 10 :=
    ⟨n % 10, rfl, Nat.mod_lt _ (by omega)⟩
  unfold digitChar
  rw [hm]
  interval_cases m <;> decide

/-- Every formatted sent_at value has the shape YYYY-MM-DD HH:MM:SS. -/
theorem tsShape_formatSentAt (d : DateTime) : tsShape (formatSentAt d) = true := by
  have hdata : (formatSentAt d).data =
      [digitChar (d.year / 1000), digitChar (d.year / 100), digitChar (d.year / 10),
       digitChar d.year, '-', digitChar (d.month / 10), digitChar d.month, '-',
       digitChar (d.day / 10), digitChar d.day, ' ', digitChar (d.hour / 10),
       digitChar d.hour, ':', digitChar (d.minute / 10), digitChar d.minute, ':',
       digitChar (d.second / 10), digitChar d.second] := by
    simp [formatSentAt, pad4, pad2, String.data_append]
  unfold tsShape
  rw [hdata]
  simp [digitChar_isDigit]

/-- C5 (amended): the fail-fast configuration check is keyed to the API
credential alone, not to is_configured.  When the API key is absent every
send_email call returns the client-not-initialized error without a network
attempt, and a bulk batch of R rows yields successCount 0, failedCount R
and an empty call list.  (With a key present but the sender address empty,
is_configured is false yet a network attempt is still made; see the
counterexample.) -/
theorem C5_amended (svc : EmailConfig) (api : Nat → ApiResult)
    (uuidHex : Nat → String) (now : String) (calls : List GatewayCall)
    (re subj : String) (html : RenderedEmail) (rows : List CsvRow)
    (hkey : svc.brevo_api_key = "") :
    send_email svc api calls re subj html =
      (⟨false, none, some "Brevo client not initialized. Check API key."⟩, calls) ∧
    (send_bulk_receipts svc api uuidHex now rows).success = 0 ∧
    (send_bulk_receipts svc api uuidHex now rows).failed = rows.length ∧
    (send_bulk_receipts svc api uuidHex now rows).calls = [] := by
  obtain ⟨h1, h2, h3⟩ := bulk_noKey_aux svc api uuidHex now hkey rows ⟨0, 0, [], [], 0⟩
  unfold send_bulk_receipts
  refine ⟨by simp [send_email, hkey], h1, by rw [h2]; simp, h3⟩

/-- C5 witness: the amended theorem applied to a missing API key and a
two-row batch. -/
theorem C5_amended_witness :
    svcNoKey.brevo_api_key = "" ∧
    (send_email svcNoKey apiRelay [] "a@example.com" "subj" bodyFix =
      (⟨false, none, some "Brevo client not initialized. Check API key."⟩, []) ∧
    (send_bulk_receipts svcNoKey apiRelay uuidFix "t"
      [rowPlain, rowBadQuantity]).success = 0 ∧
    (send_bulk_receipts svcNoKey apiRelay uuidFix "t"
      [rowPlain, rowBadQuantity]).failed = [rowPlain, rowBadQuantity].length ∧
    (send_bulk_receipts svcNoKey apiRelay uuidFix "t"
      [rowPlain, rowBadQuantity]).calls = []) :=
  ⟨rfl, C5_amended svcNoKey apiRelay uuidFix "t" [] "a@example.com" "subj"
    bodyFix [rowPlain, rowBadQuantity] rfl⟩

/-- C3 (amended): a persistence failure while logging any outcome of a bulk
batch is caught and rolled back without touching the already-computed
outcomes or summary counts, but it aborts the whole batch's audit trail: no
record of the batch is committed, including those of rows after (and
before) the failing one. -/
theorem C3_amended (svc : EmailConfig) (api : Nat → ApiResult)
    (uuidHex : Nat → String) (now : String) (userId : Nat) (username : String)
    (nowDT : DateTime) (nowDate : String) (addFails : Nat → Bool)
    (commitFails : Bool) (rows : List CsvRow)
    (h : ∃ j, j < (send_bulk_receipts svc api uuidHex now rows).results.length ∧
      addFails j = true) :
    (send_bulk_route svc api uuidHex now userId username nowDT nowDate addFails
      commitFails rows).persisted = [] ∧
    (send_bulk_route svc api uuidHex now userId username nowDT nowDate addFails
      commitFails rows).success =
      (send_bulk_receipts svc api uuidHex now rows).success ∧
    (send_bulk_route svc api uuidHex now userId username nowDT nowDate addFails
      commitFails rows).failed =
      (send_bulk_receipts svc api uuidHex now rows).failed ∧
    (send_bulk_route svc api uuidHex now userId username nowDT nowDate addFails
      commitFails rows).outcomes =
      (send_bulk_receipts svc api uuidHex now rows).results := by
  have habort := addRecords_abort addFails userId username
    (rows.map parseRecipient) nowDT nowDate
    (send_bulk_receipts svc api uuidHex now rows).results 0
    (by obtain ⟨j, hj, hf⟩ := h; exact ⟨j, hj, by simpa using hf⟩)
  refine ⟨?_, rfl, rfl, rfl⟩
  simp [send_bulk_route, logBulkEmails, habort]

/-- C3 witness: the amended theorem applied to a two-row batch whose first
record add fails. -/
theorem C3_amended_witness :
    (∃ j, j < (send_bulk_receipts svcCfg apiRelay uuidFix "t"
      [rowPlain, rowPlain]).results.length ∧ failAt0 j = true) ∧
    ((send_bulk_route svcCfg apiRelay uuidFix "t" 7 "admin" dtFix "2024-01-01"
      failAt0 false [rowPlain, rowPlain]).persisted = [] ∧
    (send_bulk_route svcCfg apiRelay uuidFix "t" 7 "admin" dtFix "2024-01-01"
      failAt0 false [rowPlain, rowPlain]).success =
      (send_bulk_receipts svcCfg apiRelay uuidFix "t" [rowPlain, rowPlain]).success ∧
    (send_bulk_route svcCfg apiRelay uuidFix "t" 7 "admin" dtFix "2024-01-01"
      failAt0 false [rowPlain, rowPlain]).failed =
      (send_bulk_receipts svcCfg apiRelay uuidFix "t" [rowPlain, rowPlain]).failed ∧
    (send_bulk_route svcCfg apiRelay uuidFix "t" 7 "admin" dtFix "2024-01-01"
      failAt0 false [rowPlain, rowPlain]).outcomes =
      (send_bulk_receipts svcCfg apiRelay uuidFix "t" [rowPlain, rowPlain]).results) :=
  ⟨⟨0, by decide, by decide⟩,
   C3_amended svcCfg apiRelay uuidFix "t" 7 "admin" dtFix "2024-01-01" failAt0
     false [rowPlain, rowPlain] ⟨0, by decide, by decide⟩⟩

/-- C4 (amended): the transaction id derivation convention without the
bracket clause.  A missing or empty message_id yields none; a message_id
starting with the angle bracket and containing an at-sign yields the
substring strictly between them (any square brackets are kept verbatim);
every other message_id is returned unchanged. -/
theorem C4_amended :
    extract_transaction_id none = none ∧
    extract_transaction_id (some "") = none ∧
    (∀ left rest : String, '@' ∉ left.data →
      extract_transaction_id (some ("<" ++ left ++ "@" ++ rest)) = some left) ∧
    (∀ s : String, s.data ≠ [] →
      (s.data.headD ' ' ≠ '<' ∨ '@' ∉ s.data) →
      extract_transaction_id (some s) = some s) := by
  refine ⟨rfl, rfl, ?_, ?_⟩
  · intro left rest hl
    have hl2 : ∀ c ∈ left.data, c ≠ '@' := fun c hc heq => hl (heq ▸ hc)
    have hdata : ("<" ++ left ++ "@" ++ rest).data =
        '<' :: (left.data ++ '@' :: rest.data) := by
      simp [String.data_append]
    rw [extract_cons _ '<' (left.data ++ '@' :: rest.data) hdata]
    rw [takeWhile_until rest.data left.data hl2]
    simp
  · intro s hne hcond
    rcases hd : s.data with _ | ⟨c, tail⟩
    · exact absurd hd hne
    · rw [extract_cons s c tail hd]
      rw [if_neg]
      intro hc
      simp only [Bool.and_eq_true, decide_eq_true_eq] at hc
      rcases hcond with h1 | h2
      · rw [hd] at h1
        simp at h1
        exact h1 hc.1
      · rw [hd] at h2
        have : ('@' : Char) ∈ c :: tail := by
          have := hc.2
          simpa using this
        exact h2 this

/-- C4 witness: the angle-bracket clause of the amended theorem applied to
the relay-shaped message id of the spec's example. -/
theorem C4_amended_witness :
    ('@' ∉ ("ABC123" : String).data) ∧
    extract_transaction_id
      (some ("<" ++ "ABC123" ++ "@" ++ "smtp-relay.mailin.fr>")) =
      some "ABC123" :=
  ⟨by decide, C4_amended.2.2.1 "ABC123" "smtp-relay.mailin.fr>" (by decide)⟩

/-- C2 (amended): for every row that passes validation, a transaction id of
the form SNX- followed by 12 upper-case hex characters is generated from a
fresh uuid draw before the send attempt and embedded in the rendered email
body handed to the Gateway; it is not attached to the row's outcome, whose
fields come from the send result alone (see the counterexample: the
persisted bulk record derives its transaction id from the gateway message
id instead). -/
theorem C2_amended (svc : EmailConfig) (api : Nat → ApiResult)
    (uuidHex : Nat → String) (now : String) (st : BulkState) (row : CsvRow)
    (q : Int) (hkey : ¬ svc.brevo_api_key = "")
    (hhex : ∀ k, (uuidHex k).data.length = 32 ∧
      ∀ c ∈ (uuidHex k).data, isLowerHexDigit c = true)
    (hq : pyInt (qnorm row) = some q)
    (he : pyStrip (row.email.getD "") ≠ "")
    (hn : pyStrip (row.name.getD "") ≠ "")
    (hd : pyStrip (row.purchase_date.getD "") ≠ "")
    (hdig : editionNorm row = "digital" →
      (pyStrip (row.link.getD "") ≠ "" ∧ pyStrip (row.username.getD "") ≠ "" ∧
        pyStrip (row.password.getD "") ≠ "")) :
    (processRow svc api uuidHex now st row).uuidCount = st.uuidCount + 1 ∧
    (∃ call : GatewayCall,
      (processRow svc api uuidHex now st row).calls = st.calls ++ [call] ∧
      call.body.transaction_id =
        "SNX-" ++ pyUpper (strTake (uuidHex st.uuidCount) 12)) ∧
    ("SNX-" ++ pyUpper (strTake (uuidHex st.uuidCount) 12)).data.take 4 =
      ("SNX-" : String).data ∧
    (("SNX-" ++ pyUpper (strTake (uuidHex st.uuidCount) 12)).data.drop 4).length = 12 ∧
    (∀ c ∈ ("SNX-" ++ pyUpper (strTake (uuidHex st.uuidCount) 12)).data.drop 4,
      isUpperHexDigit c = true) ∧
    (processRow svc api uuidHex now st row).results.length = st.results.length + 1 := by
  have hdata : ("SNX-" ++ pyUpper (strTake (uuidHex st.uuidCount) 12)).data =
      ("SNX-" : String).data ++ (pyUpper (strTake (uuidHex st.uuidCount) 12)).data := by
    simp [String.data_append]
  have hup : (pyUpper (strTake (uuidHex st.uuidCount) 12)).data =
      ((uuidHex st.uuidCount).data.take 12).map pyUpperChar := rfl
  have htake : ("SNX-" ++ pyUpper (strTake (uuidHex st.uuidCount) 12)).data.take 4 =
      ("SNX-" : String).data := by
    rw [hdata, show (4 : Nat) = ("SNX-" : String).data.length from rfl]
    exact List.take_left _ _
  have hdrop : ("SNX-" ++ pyUpper (strTake (uuidHex st.uuidCount) 12)).data.drop 4 =
      (pyUpper (strTake (uuidHex st.uuidCount) 12)).data := by
    rw [hdata, show (4 : Nat) = ("SNX-" : String).data.length from rfl]
    exact List.drop_left _ _
  have hlen : ((("SNX-" ++ pyUpper (strTake (uuidHex st.uuidCount) 12)).data.drop 4)).length = 12 := by
    rw [hdrop, hup]
    rw [List.length_map, List.length_take, (hhex st.uuidCount).1]
    decide
  have hhexmem : ∀ c ∈ ("SNX-" ++ pyUpper (strTake (uuidHex st.uuidCount) 12)).data.drop 4,
      isUpperHexDigit c = true := by
    rw [hdrop, hup]
    intro c hc
    obtain ⟨c0, hc0, rfl⟩ := List.mem_map.mp hc
    exact pyUpperChar_hex c0 ((hhex st.uuidCount).2 c0 (List.take_subset _ _ hc0))
  unfold processRow
  simp only [hq]
  rw [if_neg (not_not_intro ⟨he, hn, hd⟩)]
  have hcond2 : ¬(editionNorm row = "digital" ∧
      ¬((if editionNorm row = "digital"
          then some (pyStrip (row.link.getD "")) else none).getD "" ≠ "" ∧
        (if editionNorm row = "digital"
          then some (pyStrip (row.username.getD "")) else none).getD "" ≠ "" ∧
        (if editionNorm row = "digital"
          then some (pyStrip (row.password.getD "")) else none).getD "" ≠ "")) := by
    rintro ⟨hED, hnall⟩
    apply hnall
    rw [if_pos hED, if_pos hED, if_pos hED]
    simp only [Option.getD_some]
    exact hdig hED
  rw [if_neg hcond2]
  refine ⟨rfl, ?_, htake, hlen, hhexmem, by simp⟩
  simp only [send_single_receipt, send_email]
  rw [if_neg hkey]
  cases hapi : api st.calls.length <;> exact ⟨_, rfl, rfl⟩

/-- C2 witness: the amended theorem applied to a valid print row with a
concrete uuid oracle from the initial bulk state. -/
theorem C2_amended_witness :
    (¬ svcCfg.brevo_api_key = "") ∧
    pyInt (qnorm rowPlain) = some 1 ∧
    ((processRow svcCfg apiRelay uuidFix "t" ⟨0, 0, [], [], 0⟩
      rowPlain).uuidCount = (⟨0, 0, [], [], 0⟩ : BulkState).uuidCount + 1 ∧
    (∃ call : GatewayCall,
      (processRow svcCfg apiRelay uuidFix "t" ⟨0, 0, [], [], 0⟩
        rowPlain).calls = (⟨0, 0, [], [], 0⟩ : BulkState).calls ++ [call] ∧
      call.body.transaction_id =
        "SNX-" ++ pyUpper (strTake (uuidFix
          (⟨0, 0, [], [], 0⟩ : BulkState).uuidCount) 12)) ∧
    ("SNX-" ++ pyUpper (strTake (uuidFix
      (⟨0, 0, [], [], 0⟩ : BulkState).uuidCount) 12)).data.take 4 =
      ("SNX-" : String).data ∧
    (("SNX-" ++ pyUpper (strTake (uuidFix
      (⟨0, 0, [], [], 0⟩ : BulkState).uuidCount) 12)).data.drop 4).length = 12 ∧
    (∀ c ∈ ("SNX-" ++ pyUpper (strTake (uuidFix
      (⟨0, 0, [], [], 0⟩ : BulkState).uuidCount) 12)).data.drop 4,
      isUpperHexDigit c = true) ∧
    (processRow svcCfg apiRelay uuidFix "t" ⟨0, 0, [], [], 0⟩
      rowPlain).results.length = (⟨0, 0, [], [], 0⟩ : BulkState).results.length + 1) :=
  ⟨by decide, by decide,
   C2_amended svcCfg apiRelay uuidFix "t" ⟨0, 0, [], [], 0⟩ rowPlain 1
     (by decide) (fun k => by unfold uuidFix; exact ⟨by decide, by decide⟩)
     (by decide) (by decide) (by decide) (by decide)
     (fun h => absurd h (by decide))⟩

/-- C8 (amended): a bulk row normalizing to edition digital with any of
link, username or password empty never invokes the Gateway and never counts
as a success; when its required fields are present and its quantity parses,
its outcome is the Missing digital access credentials failure, while a row
that additionally fails an earlier validation is recorded with that earlier
error instead (see the counterexample). -/
theorem C8_amended (svc : EmailConfig) (api : Nat → ApiResult)
    (uuidHex : Nat → String) (now : String) (st : BulkState) (row : CsvRow)
    (hed : editionNorm row = "digital")
    (hmiss : pyStrip (row.link.getD "") = "" ∨
      pyStrip (row.username.getD "") = "" ∨ pyStrip (row.password.getD "") = "") :
    (processRow svc api uuidHex now st row).calls = st.calls ∧
    (processRow svc api uuidHex now st row).success = st.success ∧
    (∀ q, pyInt (qnorm row) = some q →
      pyStrip (row.email.getD "") ≠ "" →
      pyStrip (row.name.getD "") ≠ "" →
      pyStrip (row.purchase_date.getD "") ≠ "" →
      (processRow svc api uuidHex now st row).results =
        st.results ++ [⟨pyStrip (row.email.getD ""), pyStrip (row.name.getD ""),
          false, none, some "Missing digital access credentials"⟩] ∧
      (processRow svc api uuidHex now st row).failed = st.failed + 1) := by
  unfold processRow
  cases hq2 : pyInt (qnorm row) with
  | none =>
    simp only [hq2]
    refine ⟨by trivial, by trivial, fun q hq => absurd hq (by simp)⟩
  | some q0 =>
    simp only [hq2]
    by_cases h1 : ¬(pyStrip (row.email.getD "") ≠ "" ∧
        pyStrip (row.name.getD "") ≠ "" ∧ pyStrip (row.purchase_date.getD "") ≠ "")
    · rw [if_pos h1]
      exact ⟨rfl, rfl, fun q hq he hn hd => absurd ⟨he, hn, hd⟩ h1⟩
    · rw [if_neg h1]
      have hcond2 : editionNorm row = "digital" ∧
          ¬((if editionNorm row = "digital"
              then some (pyStrip (row.link.getD "")) else none).getD "" ≠ "" ∧
            (if editionNorm row = "digital"
              then some (pyStrip (row.username.getD "")) else none).getD "" ≠ "" ∧
            (if editionNorm row = "digital"
              then some (pyStrip (row.password.getD "")) else none).getD "" ≠ "") := by
        refine ⟨hed, ?_⟩
        rw [if_pos hed, if_pos hed, if_pos hed]
        simp only [Option.getD_some]
        rintro ⟨ha, hb, hc⟩
        rcases hmiss with h | h | h
        exacts [ha h, hb h, hc h]
      rw [if_pos hcond2]
      exact ⟨rfl, rfl, fun q hq he hn hd => ⟨rfl, rfl⟩⟩

/-- C8 witness: the amended theorem applied to a digital row with an empty
password and all required fields present. -/
theorem C8_amended_witness :
    editionNorm rowDigitalNoPw = "digital" ∧
    ((processRow svcCfg apiRelay uuidFix "t" ⟨0, 0, [], [], 0⟩
      rowDigitalNoPw).calls = (⟨0, 0, [], [], 0⟩ : BulkState).calls ∧
    (processRow svcCfg apiRelay uuidFix "t" ⟨0, 0, [], [], 0⟩
      rowDigitalNoPw).success = (⟨0, 0, [], [], 0⟩ : BulkState).success ∧
    (∀ q, pyInt (qnorm rowDigitalNoPw) = some q →
      pyStrip (rowDigitalNoPw.email.getD "") ≠ "" →
      pyStrip (rowDigitalNoPw.name.getD "") ≠ "" →
      pyStrip (rowDigitalNoPw.purchase_date.getD "") ≠ "" →
      (processRow svcCfg apiRelay uuidFix "t" ⟨0, 0, [], [], 0⟩
        rowDigitalNoPw).results =
        (⟨0, 0, [], [], 0⟩ : BulkState).results ++
          [⟨pyStrip (rowDigitalNoPw.email.getD ""),
            pyStrip (rowDigitalNoPw.name.getD ""), false, none,
            some "Missing digital access credentials"⟩] ∧
      (processRow svcCfg apiRelay uuidFix "t" ⟨0, 0, [], [], 0⟩
        rowDigitalNoPw).failed = (⟨0, 0, [], [], 0⟩ : BulkState).failed + 1)) :=
  ⟨by decide, C8_amended svcCfg apiRelay uuidFix "t" ⟨0, 0, [], [], 0⟩
    rowDigitalNoPw (by decide) (by decide)⟩

/-- C9: for every export, with any filters, the emitted CSV starts with the
fixed 13-column header, every data row carries its record's sent_at
formatted YYYY-MM-DD HH:MM:SS in the seventh column, and the rows are
ordered newest-first by sent time; moreover, when a status filter is given
and no other filter is, the exported records are exactly the persisted
records whose status equals the filter value. -/
theorem C9_export_contract (db : List SentEmailRecord) (f : ExportFilters) :
    (export_sent_emails db f).head? = some exportHeader ∧
    (∀ r ∈ exportRecords db f,
      (recordToCsvRow r).get? 6 = some (formatSentAt r.sent_at) ∧
      tsShape (formatSentAt r.sent_at) = true) ∧
    List.Sorted sentAtGe (exportRecords db f) ∧
    (f.status ≠ "" → f.date_from = "" → f.date_to = "" → f.search = "" →
      ∀ r, r ∈ exportRecords db f ↔ r ∈ db ∧ r.status = f.status) := by
  refine ⟨rfl, ?_, ?_, ?_⟩
  · intro r _
    exact ⟨rfl, tsShape_formatSentAt r.sent_at⟩
  · exact List.sorted_insertionSort sentAtGe _
  · intro hs hdf hdt hse
    have hmatch : ∀ r : SentEmailRecord,
        matchesFilters f r = true ↔ r.status = f.status := by
      intro r
      unfold matchesFilters
      rw [hdf, hdt, hse]
      simp [hs]
    intro r
    unfold exportRecords
    rw [List.mem_insertionSort, List.mem_filter, hmatch r]

/-- C9 witness: the export contract applied to a two-record table with the
failed status filter, the status-filter clause discharged there. -/
theorem C9_export_contract_witness :
    (filtersFailed.status ≠ "" ∧ filtersFailed.date_from = "" ∧
      filtersFailed.date_to = "" ∧ filtersFailed.search = "") ∧
    ((export_sent_emails dbFix filtersFailed).head? = some exportHeader ∧
    (∀ r ∈ exportRecords dbFix filtersFailed,
      (recordToCsvRow r).get? 6 = some (formatSentAt r.sent_at) ∧
      tsShape (formatSentAt r.sent_at) = true) ∧
    List.Sorted sentAtGe (exportRecords dbFix filtersFailed) ∧
    (∀ r, r ∈ exportRecords dbFix filtersFailed ↔
      r ∈ dbFix ∧ r.status = filtersFailed.status)) :=
  ⟨⟨by decide, rfl, rfl, rfl⟩,
   ⟨(C9_export_contract dbFix filtersFailed).1,
    (C9_export_contract dbFix filtersFailed).2.1,
    (C9_export_contract dbFix filtersFailed).2.2.1,
    (C9_export_contract dbFix filtersFailed).2.2.2 (by decide) rfl rfl rfl⟩⟩
